import Mathlib

/-!
Shallow embedding of the DotBot backend optional services
(src/backend/services/memory_service.py and
src/backend/services/payment_service.py).

A Python service object becomes an immutable state value; each method
becomes a function from the pre-call state to a pair of the result
(or raised error, as `Except.error`) and the post-call state.  The only
`raise` statements in either file construct a `RuntimeError` carrying a
fixed "not initialized" message, so the error type has a single
constructor holding that message.  Dict payloads become association
lists of string keys and simple Python values, and Python's `str()`
rendering of a dict is reproduced so that the fabricated conversation
identifier `conv_<len(str(payload))>` is computed exactly as the source
does.
-/

/-- A simple Python value appearing in a payload dict. -/
inductive PyValue where
  | int (n : Int)
  | str (s : String)
deriving DecidableEq, Repr

/-- An opaque payload: a Python dict of string keys to values. -/
abbrev Payload := List (String × PyValue)

/-- The single-quote character used by Python `str()` on dicts. -/
def pyQuote : String := String.singleton (Char.ofNat 39)

/-- Python `str()` rendering of a single value. -/
def pyReprValue : PyValue → String
  | PyValue.int n => toString n
  | PyValue.str s => pyQuote ++ s ++ pyQuote

/-- Python `str()` rendering of one key-value dict item. -/
def pyReprItem : String × PyValue → String
  | (k, v) => pyQuote ++ k ++ pyQuote ++ ": " ++ pyReprValue v

/-- Python `str()` rendering of a whole dict, e.g. braces around
comma-separated items. -/
def pyStr (d : Payload) : String :=
  "\x7b" ++ String.intercalate ", " (d.map pyReprItem) ++ "\x7d"

/-- String starts-with, via the underlying character list. -/
def strStartsWith (s p : String) : Bool := p.data.isPrefixOf s.data

/-- The only error either service ever raises: `RuntimeError` with a
fixed "not initialized" message. -/
inductive ServiceError where
  | notInitialized (message : String)
deriving DecidableEq, Repr

/-- State of MemoryService: the single boolean flag set in `__init__`
and by the `initialize` method. -/
structure MemoryService where
  initialized : Bool
deriving DecidableEq, Repr

/-- `MemoryService.__init__`: the flag starts false. -/
def MemoryService.new : MemoryService := ⟨false⟩

/-- `MemoryService.initialize`: sets the flag to true (the logging call
has no observable effect on state). -/
def MemoryService.initService (s : MemoryService) : MemoryService :=
  { s with initialized := true }

/-- `MemoryService.save_conversation`: raises if not initialized,
otherwise returns `conv_` followed by the length of the textual
rendering of the payload. -/
def MemoryService.save_conversation (s : MemoryService)
    (conversation_data : Payload) :
    Except ServiceError String × MemoryService :=
  if s.initialized = false then
    (Except.error (ServiceError.notInitialized "Memory service not initialized"), s)
  else
    (Except.ok ("conv_" ++ toString (pyStr conversation_data).length), s)

/-- `MemoryService.get_conversations`: raises if not initialized,
otherwise returns the empty list, ignoring both arguments. -/
def MemoryService.get_conversations (s : MemoryService)
    (user_id : String) (limit : Int) :
    Except ServiceError (List Payload) × MemoryService :=
  if s.initialized = false then
    (Except.error (ServiceError.notInitialized "Memory service not initialized"), s)
  else
    (Except.ok [], s)

/-- `MemoryService.save_preferences`: raises if not initialized,
otherwise only logs, returning nothing and changing nothing. -/
def MemoryService.save_preferences (s : MemoryService)
    (user_id : String) (preferences : Payload) :
    Except ServiceError Unit × MemoryService :=
  if s.initialized = false then
    (Except.error (ServiceError.notInitialized "Memory service not initialized"), s)
  else
    (Except.ok (), s)

/-- Shape of the dict returned by `MemoryService.get_status`. -/
structure MemoryStatus where
  available : Bool
  type : String
  storage_backend : String
deriving DecidableEq, Repr

/-- `MemoryService.get_status`: no guard, never raises, returns the
fixed-shape report derived from the flag and two constants. -/
def MemoryService.get_status (s : MemoryService) : MemoryStatus :=
  ⟨s.initialized, "placeholder", "none"⟩

/-- State of PaymentService: the single boolean flag. -/
structure PaymentService where
  initialized : Bool
deriving DecidableEq, Repr

/-- `PaymentService.__init__`: the flag starts false. -/
def PaymentService.new : PaymentService := ⟨false⟩

/-- `PaymentService.initialize`: sets the flag to true. -/
def PaymentService.initService (t : PaymentService) : PaymentService :=
  { t with initialized := true }

/-- Shape of the dict returned by `PaymentService.process_payment`. -/
structure PaymentResult where
  success : Bool
  transaction_id : String
  message : String
deriving DecidableEq, Repr

/-- `PaymentService.process_payment`: raises if not initialized,
otherwise returns the constant success record regardless of input. -/
def PaymentService.process_payment (t : PaymentService)
    (payment_data : Payload) :
    Except ServiceError PaymentResult × PaymentService :=
  if t.initialized = false then
    (Except.error (ServiceError.notInitialized "Payment service not initialized"), t)
  else
    (Except.ok ⟨true, "txn_placeholder", "Payment processed (placeholder)"⟩, t)

/-- Shape of the dict returned by `PaymentService.get_usage_stats`. -/
structure UsageStats where
  usage : String
  tier : String
  requests_made : Int
  requests_remaining : String
deriving DecidableEq, Repr

/-- `PaymentService.get_usage_stats`: raises if not initialized,
otherwise returns the constant unlimited-free-tier record. -/
def PaymentService.get_usage_stats (t : PaymentService)
    (user_id : String) :
    Except ServiceError UsageStats × PaymentService :=
  if t.initialized = false then
    (Except.error (ServiceError.notInitialized "Payment service not initialized"), t)
  else
    (Except.ok ⟨"unlimited", "free", 0, "unlimited"⟩, t)

/-- Shape of the dict returned by `PaymentService.get_status`. -/
structure PaymentStatus where
  available : Bool
  type : String
  payment_backend : String
deriving DecidableEq, Repr

/-- `PaymentService.get_status`: no guard, never raises. -/
def PaymentService.get_status (t : PaymentService) : PaymentStatus :=
  ⟨t.initialized, "placeholder", "none"⟩

/-- One invocation of a MemoryService method, for reasoning about
arbitrary call sequences. -/
inductive MemOp where
  | initOp
  | saveConversation (d : Payload)
  | getConversations (u : String) (l : Int)
  | savePreferences (u : String) (p : Payload)
  | getStatus

/-- Whether a memory operation is the initialize call. -/
def MemOp.isInit : MemOp → Bool
  | MemOp.initOp => true
  | _ => false

/-- The state after one MemoryService method call (the post-state
component of each method; a raised error leaves the object unchanged,
as in the source, where `raise` precedes any mutation). -/
def memStep (s : MemoryService) : MemOp → MemoryService
  | MemOp.initOp => s.initService
  | MemOp.saveConversation d => (s.save_conversation d).2
  | MemOp.getConversations u l => (s.get_conversations u l).2
  | MemOp.savePreferences u p => (s.save_preferences u p).2
  | MemOp.getStatus => s

/-- The state after a sequence of MemoryService method calls. -/
def runMem (s : MemoryService) (ops : List MemOp) : MemoryService :=
  ops.foldl memStep s

/-- One invocation of a PaymentService method. -/
inductive PayOp where
  | initOp
  | processPayment (d : Payload)
  | getUsageStats (u : String)
  | getStatus

/-- Whether a payment operation is the initialize call. -/
def PayOp.isInit : PayOp → Bool
  | PayOp.initOp => true
  | _ => false

/-- The state after one PaymentService method call. -/
def payStep (t : PaymentService) : PayOp → PaymentService
  | PayOp.initOp => t.initService
  | PayOp.processPayment d => (t.process_payment d).2
  | PayOp.getUsageStats u => (t.get_usage_stats u).2
  | PayOp.getStatus => t

/-- The state after a sequence of PaymentService method calls. -/
def runPay (t : PaymentService) (ops : List PayOp) : PaymentService :=
  ops.foldl payStep t

/-- C1: every data-bearing operation (save_conversation,
get_conversations, save_preferences on the memory service;
process_payment, get_usage_stats on the payment service) invoked on a
service whose flag is still false fails with the NotInitialized error,
and NotInitialized with the service's fixed message is the only error
any of these operations can ever return. -/
theorem c1_uninitialized_fails_notInitialized
    (s : MemoryService) (t : PaymentService)
    (hs : s.initialized = false) (ht : t.initialized = false)
    (d p : Payload) (u : String) (l : Int) :
    ((s.save_conversation d).1
        = Except.error (ServiceError.notInitialized "Memory service not initialized")
      ∧ (s.get_conversations u l).1
        = Except.error (ServiceError.notInitialized "Memory service not initialized")
      ∧ (s.save_preferences u p).1
        = Except.error (ServiceError.notInitialized "Memory service not initialized")
      ∧ (t.process_payment p).1
        = Except.error (ServiceError.notInitialized "Payment service not initialized")
      ∧ (t.get_usage_stats u).1
        = Except.error (ServiceError.notInitialized "Payment service not initialized"))
    ∧ (∀ (s2 : MemoryService) (d2 : Payload) (e : ServiceError),
        (s2.save_conversation d2).1 = Except.error e →
        e = ServiceError.notInitialized "Memory service not initialized")
    ∧ (∀ (s2 : MemoryService) (u2 : String) (l2 : Int) (e : ServiceError),
        (s2.get_conversations u2 l2).1 = Except.error e →
        e = ServiceError.notInitialized "Memory service not initialized")
    ∧ (∀ (s2 : MemoryService) (u2 : String) (p2 : Payload) (e : ServiceError),
        (s2.save_preferences u2 p2).1 = Except.error e →
        e = ServiceError.notInitialized "Memory service not initialized")
    ∧ (∀ (t2 : PaymentService) (p2 : Payload) (e : ServiceError),
        (t2.process_payment p2).1 = Except.error e →
        e = ServiceError.notInitialized "Payment service not initialized")
    ∧ (∀ (t2 : PaymentService) (u2 : String) (e : ServiceError),
        (t2.get_usage_stats u2).1 = Except.error e →
        e = ServiceError.notInitialized "Payment service not initialized") := by
  refine ⟨⟨?_, ?_, ?_, ?_, ?_⟩, ?_, ?_, ?_, ?_, ?_⟩
  · simp [MemoryService.save_conversation, hs]
  · simp [MemoryService.get_conversations, hs]
  · simp [MemoryService.save_preferences, hs]
  · simp [PaymentService.process_payment, ht]
  · simp [PaymentService.get_usage_stats, ht]
  · intro s2 d2 e he
    cases h2 : s2.initialized with
    | false =>
        simp [MemoryService.save_conversation, h2] at he
        exact he.symm
    | true => simp [MemoryService.save_conversation, h2] at he
  · intro s2 u2 l2 e he
    cases h2 : s2.initialized with
    | false =>
        simp [MemoryService.get_conversations, h2] at he
        exact he.symm
    | true => simp [MemoryService.get_conversations, h2] at he
  · intro s2 u2 p2 e he
    cases h2 : s2.initialized with
    | false =>
        simp [MemoryService.save_preferences, h2] at he
        exact he.symm
    | true => simp [MemoryService.save_preferences, h2] at he
  · intro t2 p2 e he
    cases h2 : t2.initialized with
    | false =>
        simp [PaymentService.process_payment, h2] at he
        exact he.symm
    | true => simp [PaymentService.process_payment, h2] at he
  · intro t2 u2 e he
    cases h2 : t2.initialized with
    | false =>
        simp [PaymentService.get_usage_stats, h2] at he
        exact he.symm
    | true => simp [PaymentService.get_usage_stats, h2] at he

/-- C1 witness: a freshly constructed memory service rejects a concrete
save_conversation call with the NotInitialized error. -/
theorem c1_uninitialized_fails_notInitialized_witness :
    (MemoryService.new.save_conversation [("a", PyValue.int 1)]).1
      = Except.error (ServiceError.notInitialized "Memory service not initialized") :=
  (c1_uninitialized_fails_notInitialized MemoryService.new PaymentService.new
    rfl rfl [("a", PyValue.int 1)] [] "u1" 50).1.1

/-- C2: once the memory service is initialized, save_conversation never
fails for any payload and returns the non-empty identifier fabricated
deterministically from the payload's textual length, starting with
conv_; in particular, after initializing a fresh service,
save_conversation on the dict rendered as "\x7b'a': 1\x7d" returns
"conv_8", which starts with "conv_". -/
theorem c2_save_conversation_after_init
    (s : MemoryService) (h : s.initialized = true) (d : Payload) :
    ((s.save_conversation d).1 = Except.ok ("conv_" ++ toString (pyStr d).length)
      ∧ ("conv_" ++ toString (pyStr d).length) ≠ ""
      ∧ strStartsWith ("conv_" ++ toString (pyStr d).length) "conv_" = true)
    ∧ (MemoryService.new.initService.save_conversation [("a", PyValue.int 1)]).1
        = Except.ok "conv_8"
    ∧ strStartsWith "conv_8" "conv_" = true := by
  refine ⟨⟨?_, ?_, ?_⟩, ?_, ?_⟩
  · simp [MemoryService.save_conversation, h]
  · intro hcontra
    have h2 := congrArg String.length hcontra
    simp [String.length_append] at h2
    exact absurd h2.1 (by decide)
  · simp [strStartsWith, String.data_append, List.isPrefixOf_iff_prefix]
  · rfl
  · decide

/-- C2 witness: instantiation on an initialized service and the empty
payload. -/
theorem c2_save_conversation_after_init_witness :
    ((MemoryService.mk true).save_conversation []).1
      = Except.ok ("conv_" ++ toString (pyStr ([] : Payload)).length) :=
  (c2_save_conversation_after_init (MemoryService.mk true) rfl []).1.1

/-- C3: once the payment service is initialized, process_payment
returns, for every payload, the ok result whose success field is true
and whose transaction identifier is the constant "txn_placeholder",
independently of the payload. -/
theorem c3_process_payment_always_success
    (t : PaymentService) (h : t.initialized = true) (d : Payload) :
    (t.process_payment d).1
      = Except.ok ⟨true, "txn_placeholder", "Payment processed (placeholder)"⟩
    ∧ (∀ d2 : Payload, (t.process_payment d2).1 = (t.process_payment d).1) := by
  refine ⟨?_, ?_⟩
  · simp [PaymentService.process_payment, h]
  · intro d2
    simp [PaymentService.process_payment, h]

/-- C3 witness: instantiation on an initialized service and a concrete
payload. -/
theorem c3_process_payment_always_success_witness :
    ((PaymentService.mk true).process_payment [("amount", PyValue.int 5)]).1
      = Except.ok ⟨true, "txn_placeholder", "Payment processed (placeholder)"⟩ :=
  (c3_process_payment_always_success (PaymentService.mk true) rfl
    [("amount", PyValue.int 5)]).1

/-- C4: for both services, get_status is a total function needing no
initialization, whose report is exactly the fixed shape built from the
initialized flag and two hardcoded constants; and after initializing
any state, the reported available field is true. -/
theorem c4_get_status_total_fixed_shape :
    (∀ s : MemoryService, s.get_status = ⟨s.initialized, "placeholder", "none"⟩)
    ∧ (∀ t : PaymentService, t.get_status = ⟨t.initialized, "placeholder", "none"⟩)
    ∧ (∀ s : MemoryService, s.initService.get_status.available = true)
    ∧ (∀ t : PaymentService, t.initService.get_status.available = true) := by
  refine ⟨fun s => rfl, fun t => rfl, fun s => rfl, fun t => rfl⟩

/-- C5: once the memory service is initialized, get_conversations
returns the empty list for every user id and limit, and its result does
not depend on either argument. -/
theorem c5_get_conversations_empty
    (s : MemoryService) (h : s.initialized = true) (u : String) (l : Int) :
    (s.get_conversations u l).1 = Except.ok []
    ∧ (∀ (u2 : String) (l2 : Int),
        s.get_conversations u2 l2 = s.get_conversations u l) := by
  refine ⟨?_, ?_⟩
  · simp [MemoryService.get_conversations, h]
  · intro u2 l2
    simp [MemoryService.get_conversations, h]

/-- C5 witness: instantiation on an initialized service with the
scenario arguments. -/
theorem c5_get_conversations_empty_witness :
    ((MemoryService.mk true).get_conversations "u1" 50).1 = Except.ok [] :=
  (c5_get_conversations_empty (MemoryService.mk true) rfl "u1" 50).1

/-- C6: once the payment service is initialized, get_usage_stats
returns the constant unlimited-free-tier record (usage unlimited, tier
free, zero requests made, unlimited remaining) for every user id, and
its result does not depend on the user id. -/
theorem c6_usage_stats_constant
    (t : PaymentService) (h : t.initialized = true) (u : String) :
    (t.get_usage_stats u).1 = Except.ok ⟨"unlimited", "free", 0, "unlimited"⟩
    ∧ (∀ u2 : String, t.get_usage_stats u2 = t.get_usage_stats u) := by
  refine ⟨?_, ?_⟩
  · simp [PaymentService.get_usage_stats, h]
  · intro u2
    simp [PaymentService.get_usage_stats, h]

/-- C6 witness: instantiation on an initialized service and a concrete
user id. -/
theorem c6_usage_stats_constant_witness :
    ((PaymentService.mk true).get_usage_stats "u1").1
      = Except.ok ⟨"unlimited", "free", 0, "unlimited"⟩ :=
  (c6_usage_stats_constant (PaymentService.mk true) rfl "u1").1

/-- Helper: one memory step leaves the flag true unless the step is the
initialize call, which sets it. -/
theorem memStep_initialized (s : MemoryService) (op : MemOp) :
    (memStep s op).initialized = (s.initialized || op.isInit) := by
  cases op <;> cases h : s.initialized <;>
    simp [memStep, MemOp.isInit, MemoryService.initService,
      MemoryService.save_conversation, MemoryService.get_conversations,
      MemoryService.save_preferences, h]

/-- Helper: one payment step leaves the flag true unless the step is
the initialize call, which sets it. -/
theorem payStep_initialized (t : PaymentService) (op : PayOp) :
    (payStep t op).initialized = (t.initialized || op.isInit) := by
  cases op <;> cases h : t.initialized <;>
    simp [payStep, PayOp.isInit, PaymentService.initService,
      PaymentService.process_payment, PaymentService.get_usage_stats, h]

/-- Helper: a memory service whose flag is true keeps it true across
any sequence of method calls. -/
theorem runMem_initialized (ops : List MemOp) :
    ∀ s : MemoryService, s.initialized = true →
      (runMem s ops).initialized = true := by
  induction ops with
  | nil => intro s h; simpa [runMem] using h
  | cons op rest ih =>
      intro s h
      have h2 : (memStep s op).initialized = true := by
        rw [memStep_initialized, h, Bool.true_or]
      simpa [runMem, List.foldl_cons] using ih (memStep s op) h2

/-- Helper: a payment service whose flag is true keeps it true across
any sequence of method calls. -/
theorem runPay_initialized (ops : List PayOp) :
    ∀ t : PaymentService, t.initialized = true →
      (runPay t ops).initialized = true := by
  induction ops with
  | nil => intro t h; simpa [runPay] using h
  | cons op rest ih =>
      intro t h
      have h2 : (payStep t op).initialized = true := by
        rw [payStep_initialized, h, Bool.true_or]
      simpa [runPay, List.foldl_cons] using ih (payStep t op) h2

/-- C7: for both services the state is the single boolean initialized
flag: false at construction, set true by the initialize call, and
monotonic, since each step's flag is the old flag or-ed with whether
the step is the initialize call, so after the initialize call every
sequence of operations keeps the flag true. -/
theorem c7_initialized_monotonic :
    (MemoryService.new.initialized = false
      ∧ PaymentService.new.initialized = false)
    ∧ (∀ s : MemoryService, s.initService.initialized = true)
    ∧ (∀ t : PaymentService, t.initService.initialized = true)
    ∧ (∀ (s : MemoryService) (op : MemOp),
        (memStep s op).initialized = (s.initialized || op.isInit))
    ∧ (∀ (t : PaymentService) (op : PayOp),
        (payStep t op).initialized = (t.initialized || op.isInit))
    ∧ (∀ (s : MemoryService) (ops : List MemOp),
        (runMem s.initService ops).initialized = true)
    ∧ (∀ (t : PaymentService) (ops : List PayOp),
        (runPay t.initService ops).initialized = true) := by
  refine ⟨⟨rfl, rfl⟩, fun s => rfl, fun t => rfl,
    memStep_initialized, payStep_initialized, ?_, ?_⟩
  · intro s ops
    exact runMem_initialized ops s.initService rfl
  · intro t ops
    exact runPay_initialized ops t.initService rfl

/-- C8: for both services the initialize call is total (no failure
path) and idempotent in effect: from any state, calling it twice
leaves exactly the state reached by calling it once. -/
theorem c8_init_idempotent :
    (∀ s : MemoryService, s.initService.initService = s.initService
      ∧ s.initService.initialized = true)
    ∧ (∀ t : PaymentService, t.initService.initService = t.initService
      ∧ t.initService.initialized = true) :=
  ⟨fun s => ⟨rfl, rfl⟩, fun t => ⟨rfl, rfl⟩⟩

/-- C9: once the memory service is initialized, save_preferences
returns no value (unit) and the post-call state is exactly the
pre-call state, for every user id and preferences payload. -/
theorem c9_save_preferences_no_effect
    (s : MemoryService) (h : s.initialized = true) (u : String) (p : Payload) :
    (s.save_preferences u p).1 = Except.ok ()
    ∧ (s.save_preferences u p).2 = s := by
  refine ⟨?_, ?_⟩ <;> simp [MemoryService.save_preferences, h]

/-- C9 witness: instantiation on an initialized service with concrete
arguments. -/
theorem c9_save_preferences_no_effect_witness :
    ((MemoryService.mk true).save_preferences "u1" []).1 = Except.ok ()
    ∧ ((MemoryService.mk true).save_preferences "u1" []).2
        = MemoryService.mk true :=
  c9_save_preferences_no_effect (MemoryService.mk true) rfl "u1" []

/-- C10: whenever a data-bearing operation of either service returns
the NotInitialized error, the post-call state equals the pre-call
state and the initialized flag was (and stays) false, so a failed call
never alters subsequent behaviour. -/
theorem c10_error_atomicity
    (s : MemoryService) (t : PaymentService) (d p : Payload)
    (u : String) (l : Int) :
    (∀ e : ServiceError, (s.save_conversation d).1 = Except.error e →
        (s.save_conversation d).2 = s ∧ s.initialized = false)
    ∧ (∀ e : ServiceError, (s.get_conversations u l).1 = Except.error e →
        (s.get_conversations u l).2 = s ∧ s.initialized = false)
    ∧ (∀ e : ServiceError, (s.save_preferences u p).1 = Except.error e →
        (s.save_preferences u p).2 = s ∧ s.initialized = false)
    ∧ (∀ e : ServiceError, (t.process_payment p).1 = Except.error e →
        (t.process_payment p).2 = t ∧ t.initialized = false)
    ∧ (∀ e : ServiceError, (t.get_usage_stats u).1 = Except.error e →
        (t.get_usage_stats u).2 = t ∧ t.initialized = false) := by
  refine ⟨?_, ?_, ?_, ?_, ?_⟩ <;> intro e he
  · cases h2 : s.initialized with
    | false => exact ⟨by simp [MemoryService.save_conversation, h2], rfl⟩
    | true => simp [MemoryService.save_conversation, h2] at he
  · cases h2 : s.initialized with
    | false => exact ⟨by simp [MemoryService.get_conversations, h2], rfl⟩
    | true => simp [MemoryService.get_conversations, h2] at he
  · cases h2 : s.initialized with
    | false => exact ⟨by simp [MemoryService.save_preferences, h2], rfl⟩
    | true => simp [MemoryService.save_preferences, h2] at he
  · cases h2 : t.initialized with
    | false => exact ⟨by simp [PaymentService.process_payment, h2], rfl⟩
    | true => simp [PaymentService.process_payment, h2] at he
  · cases h2 : t.initialized with
    | false => exact ⟨by simp [PaymentService.get_usage_stats, h2], rfl⟩
    | true => simp [PaymentService.get_usage_stats, h2] at he

/-- C10 witness: on a freshly constructed memory service, the failing
save_conversation call leaves the state unchanged with the flag false. -/
theorem c10_error_atomicity_witness :
    (MemoryService.new.save_conversation []).2 = MemoryService.new
    ∧ MemoryService.new.initialized = false :=
  (c10_error_atomicity MemoryService.new PaymentService.new [] [] "u1" 50).1
    (ServiceError.notInitialized "Memory service not initialized") rfl
